import Mathlib

/-!
Shallow embedding of src/rtmp.go (package fathomrtmp), the lifecycle and
graceful-shutdown coordinator of a disposable RTMP worker instance, together
with theorems settling the specification claims about it.

Effectful Go code is embedded by making each external outcome (JSON decode,
net.Dial, HTTP round trip, json.Marshal, server.Shutdown) an explicit
parameter and returning the function's observable effects (responses written,
map updates, waitgroup changes, events emitted) as data.
-/

namespace Rtmp

/-- Instance statuses, from the InstanceStatus struct of src/rtmp.go. -/
inductive instanceStatusType
  | Inactive
  | Starting
  | Running
  | ShutdownRequested
  | ShuttingDown
  | ShutdownFailed
deriving DecidableEq, Repr

/-- Position of a status along the forward lifecycle chain
Inactive, Starting, Running, ShutdownRequested, ShuttingDown, ShutdownFailed. -/
def statusRank : instanceStatusType → Nat
  | .Inactive => 0
  | .Starting => 1
  | .Running => 2
  | .ShutdownRequested => 3
  | .ShuttingDown => 4
  | .ShutdownFailed => 5

/-- Shutdown reasons, from the ShutdownReason struct of src/rtmp.go. -/
inductive ShutdownReasonType
  | Usage
  | Lifetime
deriving DecidableEq, Repr

/-- Model of net.Conn: the source uses only RemoteAddr().String() on it. -/
structure Conn where
  remoteAddr : String
deriving DecidableEq, Repr

/-- The JSON body decoded by handleNewStream: an id (UUID) and a target URL. -/
structure StreamDetails where
  uuid : String
  url : String
deriving DecidableEq, Repr

/-- The connections map (map from string to net.Conn), as an association list. -/
abbrev ConnMap := List (String × Conn)

/-- Go map assignment m[k] = v: overwrites any existing entry for k. -/
def mapAssign (m : ConnMap) (k : String) (v : Conn) : ConnMap :=
  (k, v) :: m.filter (fun p => p.1 != k)

/-- Go delete(m, k): removes the entry for k when present. -/
def mapDelete (m : ConnMap) (k : String) : ConnMap :=
  m.filter (fun p => p.1 != k)

/-- Go len(m) on the connections map. -/
def mapLen (m : ConnMap) : Nat := m.length

/-- Go map read m[k], as an Option. -/
def mapLookup (m : ConnMap) (k : String) : Option Conn :=
  (m.find? (fun p => p.1 == k)).map (fun p => p.2)

/-- The shared mutable state the coordinator touches: the status variable,
the connections map and the sync.WaitGroup counter of startServer. -/
structure ServerState where
  status : instanceStatusType
  connections : ConnMap
  wgCounter : Nat
deriving DecidableEq, Repr

/-- Responses handleNewStream can write: http.Error 400 for a bad body,
http.Error 500 for a failed dial, sendResponse 200 on admission. -/
inductive HTTPReply
  | badRequest
  | serverError
  | okReply
deriving DecidableEq, Repr

/-- Effects of handleNewStream beyond its state update: wg.Add(1), spawning
the session goroutine, and (never emitted by the source) a send on
connectionChan that would reset the usage timer. -/
inductive CoordEvent
  | wgAdd
  | spawnSession (d : StreamDetails) (c : Conn)
  | signalUsageReset
deriving DecidableEq, Repr

/-- handleNewStream, src/rtmp.go lines 298 to 345. It locks connectionsMux,
decodes the body (decodeResult), dials the target (dialResult), stores the
connection under streamDetails.UUID, unlocks, answers 200, and spawns the
session goroutine after wg.Add(1). It never reads the status variable. -/
def handleNewStream (decodeResult : Option StreamDetails)
    (dialResult : StreamDetails → Option Conn) (s : ServerState) :
    HTTPReply × ServerState × List CoordEvent :=
  match decodeResult with
  | none => (.badRequest, s, [])
  | some d =>
    match dialResult d with
    | none => (.serverError, s, [])
    | some conn =>
      (.okReply,
       { s with
           connections := mapAssign s.connections d.uuid conn,
           wgCounter := s.wgCounter + 1 },
       [.wgAdd, .spawnSession d conn])

/-- The session goroutine body after HandleStream returns, src/rtmp.go lines
334 to 344: under connectionsMux it deletes the map entry keyed by
conn.RemoteAddr().String(), calls connectionComplete(streamDetails.UUID),
unlocks, and the deferred wg.Done() decrements the waitgroup. Returns the new
state and the uuid reported complete to Kubernetes. -/
def sessionCompletion (d : StreamDetails) (conn : Conn) (s : ServerState) :
    ServerState × String :=
  ({ s with
       connections := mapDelete s.connections conn.remoteAddr,
       wgCounter := s.wgCounter - 1 },
   d.uuid)

/-- wg.Wait(), the drain step at src/rtmp.go line 283: it returns exactly when
the waitgroup counter is zero. -/
def drainReturns (s : ServerState) : Bool := s.wgCounter == 0

/-- Claim C1, counterexample: with status already ShutdownRequested, a
well-formed admission with a reachable target is answered 200 and the session
is registered, contradicting the claim that admission is rejected once
statusRank reaches that of ShutdownRequested. -/
theorem C1_admits_after_shutdown_requested :
    (handleNewStream (some { uuid := "a", url := "t" })
        (fun _ => some { remoteAddr := "r" })
        { status := .ShutdownRequested, connections := [], wgCounter := 0 }).1
      = HTTPReply.okReply
    ∧ mapLookup (handleNewStream (some { uuid := "a", url := "t" })
        (fun _ => some { remoteAddr := "r" })
        { status := .ShutdownRequested, connections := [], wgCounter := 0 }).2.1.connections "a"
      = some { remoteAddr := "r" }
    ∧ statusRank .ShutdownRequested ≤ statusRank .ShutdownRequested := by
  decide

/-- Claim C1, amended: handleNewStream never inspects the instance status, so
its reply, registry update, waitgroup change and emitted events are identical
for any two statuses; in particular sessions are still admitted and registered
after the status flip to ShutdownRequested. -/
theorem C1_admission_independent_of_status (decodeResult : Option StreamDetails)
    (dialResult : StreamDetails → Option Conn)
    (st₁ st₂ : instanceStatusType) (conns : ConnMap) (wg : Nat) :
    (handleNewStream decodeResult dialResult
        { status := st₁, connections := conns, wgCounter := wg }).1
      = (handleNewStream decodeResult dialResult
        { status := st₂, connections := conns, wgCounter := wg }).1
    ∧ (handleNewStream decodeResult dialResult
        { status := st₁, connections := conns, wgCounter := wg }).2.1.connections
      = (handleNewStream decodeResult dialResult
        { status := st₂, connections := conns, wgCounter := wg }).2.1.connections
    ∧ (handleNewStream decodeResult dialResult
        { status := st₁, connections := conns, wgCounter := wg }).2.1.wgCounter
      = (handleNewStream decodeResult dialResult
        { status := st₂, connections := conns, wgCounter := wg }).2.1.wgCounter
    ∧ (handleNewStream decodeResult dialResult
        { status := st₁, connections := conns, wgCounter := wg }).2.2
      = (handleNewStream decodeResult dialResult
        { status := st₂, connections := conns, wgCounter := wg }).2.2 := by
  cases decodeResult with
  | none => simp [handleNewStream]
  | some d =>
    cases h : dialResult d with
    | none => simp [handleNewStream, h]
    | some conn => simp [handleNewStream, h]

/-- Claim C2, evaluation at the failing input: a session admitted under id
"abc" whose dialed connection has remote address "10.0.0.1:9999" finishes
processing, but sessionCompletion deletes the key conn.RemoteAddr().String()
rather than the uuid, so the record for "abc" is still registered, the count
stays 1 instead of returning to 0, while the uuid is reported complete. -/
theorem C2_completion_deletes_wrong_key :
    mapLen ((sessionCompletion { uuid := "abc", url := "t" }
        { remoteAddr := "10.0.0.1:9999" }
        { status := .Running,
          connections := [("abc", { remoteAddr := "10.0.0.1:9999" })],
          wgCounter := 1 }).1.connections) = 1
    ∧ mapLookup ((sessionCompletion { uuid := "abc", url := "t" }
        { remoteAddr := "10.0.0.1:9999" }
        { status := .Running,
          connections := [("abc", { remoteAddr := "10.0.0.1:9999" })],
          wgCounter := 1 }).1.connections) "abc"
      = some { remoteAddr := "10.0.0.1:9999" }
    ∧ (sessionCompletion { uuid := "abc", url := "t" }
        { remoteAddr := "10.0.0.1:9999" }
        { status := .Running,
          connections := [("abc", { remoteAddr := "10.0.0.1:9999" })],
          wgCounter := 1 }).2 = "abc" := by
  decide

/-- Claim C3, evaluation at the failing input: admit session "abc", let its
processing complete; the waitgroup counter is back to 0 so wg.Wait (the drain
at line 283) returns and the coordinator proceeds to confirmShutdown and
process exit, yet the registry still holds one session record, contradicting
both directions of the claim. -/
theorem C3_drain_returns_with_session_registered :
    drainReturns ((sessionCompletion { uuid := "abc", url := "t" }
        { remoteAddr := "10.0.0.1:9999" }
        (handleNewStream (some { uuid := "abc", url := "t" })
          (fun _ => some { remoteAddr := "10.0.0.1:9999" })
          { status := .Running, connections := [], wgCounter := 0 }).2.1).1) = true
    ∧ mapLen ((sessionCompletion { uuid := "abc", url := "t" }
        { remoteAddr := "10.0.0.1:9999" }
        (handleNewStream (some { uuid := "abc", url := "t" })
          (fun _ => some { remoteAddr := "10.0.0.1:9999" })
          { status := .Running, connections := [], wgCounter := 0 }).2.1).1.connections) = 1 := by
  decide

/-- A Go channel: a capacity fixed at creation and the buffered values. -/
structure GoChan (α : Type) where
  capacity : Nat
  buffer : List α
deriving Repr

/-- Go make(chan T) with no capacity argument: an unbuffered channel. -/
def makeChan (α : Type) : GoChan α := { capacity := 0, buffer := [] }

/-- The shutdown-reason delivery channel of startServer, src/rtmp.go line 239:
shutdownServer is created by make(chan ShutdownReasonType). -/
def shutdownServerChan : GoChan ShutdownReasonType := makeChan ShutdownReasonType

/-- Go send semantics: a send completes without blocking exactly when a
receiver is waiting or the buffer has free capacity; otherwise the sending
goroutine blocks. -/
def sendWouldBlock {α : Type} (ch : GoChan α) (waitingReceivers : Nat) : Bool :=
  decide (waitingReceivers = 0) && decide (ch.capacity ≤ ch.buffer.length)

/-- startServer performs exactly one receive on shutdownServer, at line 271;
after it, no receiver on that channel exists for the rest of the run. -/
def receiversAfterFirstReason : Nat := 0

/-- The single receive at line 271, with rendezvous channel semantics: the
value obtained is the first reason any timer manages to deliver. -/
def coordinatorConsume (arrivals : List ShutdownReasonType) :
    Option ShutdownReasonType :=
  arrivals.head?

/-- Claim C4, counterexample: the shutdown-reason channel is created by
make(chan ShutdownReasonType) with no capacity, so its capacity is 0, not the
single slot the claim states, and once the coordinator has taken its one
reason a further send blocks forever. -/
theorem C4_channel_unbuffered :
    shutdownServerChan.capacity = 0
    ∧ shutdownServerChan.capacity ≠ 1
    ∧ sendWouldBlock shutdownServerChan receiversAfterFirstReason = true := by
  refine ⟨rfl, by decide, rfl⟩

/-- Claim C4, amended: the coordinator consumes exactly one ShutdownReason,
the first one delivered, but the delivery channel is unbuffered, so after that
single receive the losing timer's eventual send blocks its goroutine forever
(until process exit) instead of completing into a free slot. -/
theorem C4_first_reason_consumed_loser_blocks
    (arrivals : List ShutdownReasonType) (h : arrivals ≠ []) :
    coordinatorConsume arrivals = some (arrivals.head h)
    ∧ sendWouldBlock shutdownServerChan receiversAfterFirstReason = true := by
  refine ⟨?_, rfl⟩
  cases arrivals with
  | nil => exact absurd rfl h
  | cons a as => rfl

/-- Claim C4, witness for the amended theorem at the concrete arrival order
Lifetime then Usage. -/
theorem C4_first_reason_consumed_loser_blocks_witness :
    coordinatorConsume [ShutdownReasonType.Lifetime, ShutdownReasonType.Usage]
      = some ShutdownReasonType.Lifetime
    ∧ sendWouldBlock shutdownServerChan receiversAfterFirstReason = true :=
  C4_first_reason_consumed_loser_blocks
    [ShutdownReasonType.Lifetime, ShutdownReasonType.Usage] (by decide)

/-- The usage timer loop of startUsageTimer, src/rtmp.go lines 152 to 167.
deadline is when the pending timer fires; resets lists the arrival times of
connectionChan signals in increasing order. A signal arriving before the
pending fire stops and drains the timer and resets it to fire timeout later;
once the timer fires first, the loop returns. Result: the fire time. -/
def usageTimerFire (timeout : Nat) : Nat → List Nat → Nat
  | deadline, [] => deadline
  | deadline, r :: rs =>
    if r < deadline then usageTimerFire timeout (r + timeout) rs else deadline

/-- startUsageTimer: arms the timer for timeout at instance start, runs the
loop, and on fire sends ShutdownReason.Usage on the shutdown channel. -/
def startUsageTimer (timeout : Nat) (resets : List Nat) :
    Nat × ShutdownReasonType :=
  (usageTimerFire timeout timeout resets, ShutdownReasonType.Usage)

/-- Claim C5, evaluation at the failing input: an admission handled at minute
5 emits no connectionChan signal (handleNewStream never sends one), so the
usage timer runs with no resets and fires at minute 15 from instance start
with reason Usage; had the admission reset the countdown as the claim states,
the fire would have come at minute 20 = 5 + 15. -/
theorem C5_admission_never_resets_usage_timer :
    CoordEvent.signalUsageReset ∉
      (handleNewStream (some { uuid := "a", url := "t" })
        (fun _ => some { remoteAddr := "r" })
        { status := .Running, connections := [], wgCounter := 0 }).2.2
    ∧ startUsageTimer 15 [] = (15, ShutdownReasonType.Usage)
    ∧ startUsageTimer 15 [5] = (20, ShutdownReasonType.Usage)
    ∧ (startUsageTimer 15 []).1 ≠ 5 + 15 := by
  decide

/-- The bounded grace period of the final shutdown step: the context passed to
server.Shutdown at src/rtmp.go line 288 has a 5 second timeout. -/
def shutdownGracePeriodSeconds : Nat := 5

/-- Outcome of the final shutdown step: the status variable afterwards,
the notifyKubernetes call made (reason and message), and whether startServer
returns so the process exits. -/
structure FinalShutdownResult where
  statusAfter : instanceStatusType
  kubeNotified : Option (String × String)
  processExits : Bool
deriving DecidableEq, Repr

/-- The final shutdown step of startServer, src/rtmp.go lines 287 to 295:
server.Shutdown runs under the 5 second context; when it returns an error the
code logs it and calls notifyKubernetes with reason Server Shutdown Failed and
the error text; on either path the status variable is left untouched and
startServer returns. shutdownErr is none when the transport stopped cleanly
within the window. -/
def finalShutdownStep (statusBefore : instanceStatusType)
    (shutdownErr : Option String) : FinalShutdownResult :=
  match shutdownErr with
  | some e =>
    { statusAfter := statusBefore,
      kubeNotified := some ("Server Shutdown Failed", e),
      processExits := true }
  | none =>
    { statusAfter := statusBefore, kubeNotified := none, processExits := true }

/-- Claim C6, counterexample: when server.Shutdown fails after the status was
set to ShuttingDown by confirmShutdown, the status stays ShuttingDown; it is
never assigned ShutdownFailed, contrary to the claim. -/
theorem C6_status_not_shutdown_failed :
    (finalShutdownStep .ShuttingDown (some "context deadline exceeded")).statusAfter
      = instanceStatusType.ShuttingDown
    ∧ (finalShutdownStep .ShuttingDown (some "context deadline exceeded")).statusAfter
      ≠ instanceStatusType.ShutdownFailed := by
  decide

/-- Claim C6, amended: if the transport fails to stop within the 5 second
grace period, the control plane is notified with reason Server Shutdown Failed
and the error detail and the process exits regardless; the instance status is
not changed to ShutdownFailed but remains ShuttingDown (ShutdownFailed is
declared in the status enum yet never assigned). -/
theorem C6_notify_and_exit_status_unchanged (e : String) :
    finalShutdownStep .ShuttingDown (some e)
      = { statusAfter := .ShuttingDown,
          kubeNotified := some ("Server Shutdown Failed", e),
          processExits := true }
    ∧ shutdownGracePeriodSeconds = 5 := by
  exact ⟨rfl, rfl⟩

/-- Claim C7, counterexample: admitting id "a" while "a" is already registered
succeeds with a 200 reply and silently replaces the existing connection; no
DuplicateSession rejection exists in the code. -/
theorem C7_duplicate_overwrites :
    (handleNewStream (some { uuid := "a", url := "t2" })
        (fun _ => some { remoteAddr := "r2" })
        { status := .Running,
          connections := [("a", { remoteAddr := "r1" })],
          wgCounter := 1 }).1 = HTTPReply.okReply
    ∧ mapLookup (handleNewStream (some { uuid := "a", url := "t2" })
        (fun _ => some { remoteAddr := "r2" })
        { status := .Running,
          connections := [("a", { remoteAddr := "r1" })],
          wgCounter := 1 }).2.1.connections "a"
      = some { remoteAddr := "r2" } := by
  decide

/-- Claim C7, amended: an admission whose id is already present in the
registry is not rejected: it succeeds with a 200 reply and the map assignment
overwrites the existing registered session with the new connection. -/
theorem C7_duplicate_id_admitted_and_replaced (d : StreamDetails) (c₀ c : Conn)
    (s : ServerState) (h : mapLookup s.connections d.uuid = some c₀) :
    (handleNewStream (some d) (fun _ => some c) s).1 = HTTPReply.okReply
    ∧ mapLookup (handleNewStream (some d) (fun _ => some c) s).2.1.connections d.uuid
      = some c := by
  refine ⟨rfl, ?_⟩
  simp [handleNewStream, mapAssign, mapLookup, List.find?]

/-- Claim C7, witness for the amended theorem: id "a" already registered with
remote address "r1", re-admitted and replaced by remote address "r2". -/
theorem C7_duplicate_id_admitted_and_replaced_witness :
    (handleNewStream (some { uuid := "a", url := "t2" })
        (fun _ => some { remoteAddr := "r2" })
        { status := .Running,
          connections := [("a", { remoteAddr := "r1" })],
          wgCounter := 1 }).1 = HTTPReply.okReply
    ∧ mapLookup (handleNewStream (some { uuid := "a", url := "t2" })
        (fun _ => some { remoteAddr := "r2" })
        { status := .Running,
          connections := [("a", { remoteAddr := "r1" })],
          wgCounter := 1 }).2.1.connections "a"
      = some { remoteAddr := "r2" } :=
  C7_duplicate_id_admitted_and_replaced { uuid := "a", url := "t2" }
    { remoteAddr := "r1" } { remoteAddr := "r2" }
    { status := .Running,
      connections := [("a", { remoteAddr := "r1" })],
      wgCounter := 1 } (by decide)

/-- The primitive steps performed by updateStatusAndSendRequest: taking and
releasing statusMux, writing the status variable, and the SendRequest call to
the update-status endpoint with its outcome (none is a nil error). -/
inductive StatusEvent
  | lock
  | assign (st : instanceStatusType)
  | notifyReq (st : instanceStatusType) (err : Option String)
  | unlock
deriving DecidableEq, Repr

/-- The state relevant to the status register: the status variable and
whether statusMux is held. -/
structure StatusState where
  status : instanceStatusType
  lockHeld : Bool
deriving DecidableEq, Repr

/-- Effect of one StatusEvent on the status-register state. -/
def applyStatusEvent (st : StatusState) : StatusEvent → StatusState
  | .lock => { st with lockHeld := true }
  | .assign s => { st with status := s }
  | .notifyReq _ _ => st
  | .unlock => { st with lockHeld := false }

/-- Replay a sequence of StatusEvents from a starting state. -/
def replayStatus (st : StatusState) (es : List StatusEvent) : StatusState :=
  es.foldl applyStatusEvent st

/-- updateStatusAndSendRequest, src/rtmp.go lines 170 to 183: it locks
statusMux, assigns the status variable, calls SendRequest on the
update-status endpoint while still holding the lock (logging any error), then
unlocks and returns the SendRequest error. sendResult models that call's
outcome; the result is the trace of steps and the returned error. -/
def updateStatusAndSendRequest (newStatus : instanceStatusType)
    (sendResult : Option String) : List StatusEvent × Option String :=
  ([.lock, .assign newStatus, .notifyReq newStatus sendResult, .unlock],
   sendResult)

/-- Claim C8, confirmed: for any starting state, new status and notification
outcome, the trace of updateStatusAndSendRequest first takes the lock, at the
moment of the notification call the lock is held and the status already
equals the new status, the status remains the new status after the trace even
when the notification failed, the lock is released at the end, and the
notification error is returned to the caller unchanged. -/
theorem C8_set_status_under_lock (newStatus : instanceStatusType)
    (sendResult : Option String) (st₀ : StatusState) :
    (replayStatus st₀ ((updateStatusAndSendRequest newStatus sendResult).1.take 2)).lockHeld
      = true
    ∧ (replayStatus st₀ ((updateStatusAndSendRequest newStatus sendResult).1.take 2)).status
      = newStatus
    ∧ (updateStatusAndSendRequest newStatus sendResult).1.get? 2
      = some (.notifyReq newStatus sendResult)
    ∧ (replayStatus st₀ (updateStatusAndSendRequest newStatus sendResult).1).status
      = newStatus
    ∧ (replayStatus st₀ (updateStatusAndSendRequest newStatus sendResult).1).lockHeld
      = false
    ∧ (updateStatusAndSendRequest newStatus sendResult).2 = sendResult := by
  refine ⟨rfl, rfl, rfl, rfl, rfl, rfl⟩

/-- A completed HTTP response as SendRequest sees it: only the status code is
inspected. -/
structure HTTPResponseModel where
  statusCode : Nat
deriving DecidableEq, Repr

/-- SendRequest, src/rtmp.go lines 100 to 130. parseResult models url.Parse,
createResult models http.NewRequest (none is success), doResult models
client.Do (an error or a completed response). The function returns the log
lines it printed and its error return: it returns each transport error as is,
and after a completed round trip it only logs a non-200 status and returns a
nil error. -/
def SendRequest (parseResult : Option String) (createResult : Option String)
    (doResult : Except String HTTPResponseModel) :
    List String × Option String :=
  match parseResult with
  | some e => (["Error parsing URL: " ++ e], some e)
  | none =>
    match createResult with
    | some e => (["Error creating request: " ++ e], some e)
    | none =>
      match doResult with
      | .error e => (["Error sending request: " ++ e], some e)
      | .ok resp =>
        if resp.statusCode != 200 then
          (["Request returned status " ++ toString resp.statusCode], none)
        else
          ([], none)

/-- Claim C9, confirmed: a completed round trip yields a nil error whatever
the response status code, and in general SendRequest returns a nil error
exactly when URL parsing, request creation and the send all succeeded, so a
non-200 control-plane response is never surfaced as an error. -/
theorem C9_send_request_error_iff_transport_failure
    (parseResult createResult : Option String)
    (doResult : Except String HTTPResponseModel) :
    (∀ resp : HTTPResponseModel, (SendRequest none none (.ok resp)).2 = none)
    ∧ ((SendRequest parseResult createResult doResult).2 = none ↔
        (parseResult = none ∧ createResult = none
          ∧ ∃ resp, doResult = .ok resp)) := by
  constructor
  · intro resp
    by_cases h : resp.statusCode = 200 <;> simp [SendRequest, h]
  · cases parseResult with
    | some e => simp [SendRequest]
    | none =>
      cases createResult with
      | some e => simp [SendRequest]
      | none =>
        cases doResult with
        | error e => simp [SendRequest]
        | ok resp =>
          by_cases h : resp.statusCode = 200 <;> simp [SendRequest, h]

/-- getStatus, src/rtmp.go lines 220 to 234: it snapshots the status and the
connection count under statusMux, marshals the payload; when marshalling
fails it logs and writes a 500 response with the error text but does not
return, and on every path it then writes a 200 response with jsonPayload
(which is absent on the failure path). marshalResult models json.Marshal;
the result lists the responses written in order as code and body. -/
def getStatus (marshalResult : Except String String) :
    List (Nat × Option String) :=
  match marshalResult with
  | .error e =>
    [(500, some ("Error marshalling status into JSON: " ++ e)), (200, none)]
  | .ok p => [(200, some p)]

/-- Claim C10, confirmed: the last response getStatus writes is always a 200
carrying the payload, and on a marshalling failure it writes the 500 error
response first and still writes the 200 afterwards instead of returning
early. -/
theorem C10_get_status_always_writes_ok (marshalResult : Except String String) :
    ((getStatus marshalResult).map Prod.fst).getLast? = some 200
    ∧ (∀ e : String, getStatus (.error e)
        = [(500, some ("Error marshalling status into JSON: " ++ e)), (200, none)])
    ∧ (∀ p : String, getStatus (.ok p) = [(200, some p)]) := by
  refine ⟨?_, fun e => rfl, fun p => rfl⟩
  cases marshalResult <;> rfl

end Rtmp
